import Mathlib

/-!
Shallow embedding of the Vulkan bootstrap application (src/lib.rs, src/debug.rs).

Native Vulkan handles are opaque; what the program observes of them through the
queries it makes (device type, queue-family flag sets) is modelled as explicit
data. Mutating Vec builders become functions from list to list; fallible calls
become Option/Except; destroy calls become events collected in a trace.
-/

namespace Oxide

/-- Queue capability bits of ash::vk::QueueFlags, as far as the program reads
them; `contains(QueueFlags::GRAPHICS)` is the `graphics` field. -/
structure QueueFlags where
  graphics : Bool
  compute : Bool
  transfer : Bool
deriving DecidableEq, Repr

/-- ash::vk::QueueFamilyProperties, restricted to the fields the program reads. -/
structure QueueFamilyProperties where
  queueFlags : QueueFlags
  queueCount : Nat
deriving DecidableEq, Repr

/-- ash::vk::PhysicalDeviceType values. -/
inductive PhysicalDeviceType where
  | other
  | integratedGpu
  | discreteGpu
  | virtualGpu
  | cpu
deriving DecidableEq, Repr

/-- ash::vk::PhysicalDeviceProperties, restricted to the field the program reads. -/
structure PhysicalDeviceProperties where
  deviceType : PhysicalDeviceType
deriving DecidableEq, Repr

/-- A physical device as observable through the two instance queries the program
makes: get_physical_device_properties and
get_physical_device_queue_family_properties. -/
structure PhysicalDevice where
  properties : PhysicalDeviceProperties
  queueFamilies : List QueueFamilyProperties
deriving DecidableEq, Repr

/-! ## debug.rs -/

/-- const VALIDATION_LAYERS: [&str; 1]. -/
def VALIDATION_LAYERS : List String := ["VK_LAYER_KHRONOS_validation"]

/-- The name of the single validation layer. -/
def validationLayerName : String := "VK_LAYER_KHRONOS_validation"

/-- DebugUtils::name(), the diagnostic instance extension VK_EXT_debug_utils. -/
def debugUtilsExtensionName : String := "VK_EXT_debug_utils"

/-- CString::new: fails (None) when the string holds an interior NUL byte. -/
def cstring_new (s : String) : Option String :=
  if s.data.contains (Char.ofNat 0) then none else some s

/-- VulkanDebugger::add_necessary_extensions: pushes DebugUtils::name() onto the
extension list when SHOULD_INCLUDE_VALIDATION_LAYERS holds (the build-time flag
is the `enabled` parameter), otherwise leaves the list unchanged. -/
def add_necessary_extensions (enabled : Bool) (extension_list : List String) :
    List String :=
  if enabled then extension_list ++ [debugUtilsExtensionName] else extension_list

/-- VulkanDebugger::add_necessary_layers: extends the layer list with the
validation layers (each passed through CString::new) when the build-time flag
holds, otherwise leaves the list unchanged. -/
def add_necessary_layers (enabled : Bool) (layer_list : List String) :
    List String :=
  if enabled then layer_list ++ VALIDATION_LAYERS.filterMap cstring_new
  else layer_list

/-- The severity and type filters of vk::DebugUtilsMessengerCreateInfoEXT as
built by create_debug_messenger_create_info. -/
structure DebugUtilsMessengerCreateInfo where
  severityInfo : Bool
  severityWarning : Bool
  severityError : Bool
  severityVerbose : Bool
  typeGeneral : Bool
  typePerformance : Bool
  typeValidation : Bool
deriving DecidableEq, Repr

/-- VulkanDebugger::create_debug_messenger_create_info: severities
INFO | WARNING | ERROR, types GENERAL | PERFORMANCE | VALIDATION. -/
def create_debug_messenger_create_info : DebugUtilsMessengerCreateInfo :=
  { severityInfo := true
  , severityWarning := true
  , severityError := true
  , severityVerbose := false
  , typeGeneral := true
  , typePerformance := true
  , typeValidation := true }

/-- VulkanDebugger::get_debug_messenger_info: the descriptor when the build-time
flag holds, none otherwise. -/
def get_debug_messenger_info (enabled : Bool) :
    Option DebugUtilsMessengerCreateInfo :=
  if enabled then some create_debug_messenger_create_info else none

/-- Log levels of the host logging facade as used by the callback. -/
inductive LogLevel where
  | error
  | warn
  | info
  | debug
deriving DecidableEq, Repr

/-- The severity bits of vk::DebugUtilsMessageSeverityFlagsEXT; `contains` of a
single bit is the corresponding field. -/
structure SeverityFlags where
  error : Bool
  warning : Bool
  info : Bool
  verbose : Bool
deriving DecidableEq, Repr

/-- The single-bit severity value ERROR. -/
def severityError : SeverityFlags := ⟨true, false, false, false⟩

/-- The single-bit severity value WARNING. -/
def severityWarning : SeverityFlags := ⟨false, true, false, false⟩

/-- The single-bit severity value INFO. -/
def severityInfo : SeverityFlags := ⟨false, false, true, false⟩

/-- The single-bit severity value VERBOSE. -/
def severityVerbose : SeverityFlags := ⟨false, false, false, true⟩

/-- VulkanDebugger::vulkan_debug_callback: emits log records for the message via
the if/else chain on the severity bits and returns vk::FALSE. The returned Bool
models vk::Bool32, where `false` is vk::FALSE = 0, the value that tells the
runtime not to abort the triggering operation. -/
def vulkan_debug_callback (message_severity : SeverityFlags) (message : String) :
    List (LogLevel × String) × Bool :=
  let logs :=
    if message_severity.error then [(LogLevel.error, message)]
    else if message_severity.warning then [(LogLevel.warn, message)]
    else if message_severity.info then [(LogLevel.info, message)]
    else if message_severity.verbose then [(LogLevel.debug, message)]
    else []
  (logs, false)

/-! ## lib.rs -/

/-- const WIDTH: f64 = 800.0 (exactly the natural number 800). -/
def WIDTH : Nat := 800

/-- const HEIGHT: f64 = 600.0 (exactly the natural number 600). -/
def HEIGHT : Nat := 600

/-- The configuration handed to WindowBuilder by init_window. -/
structure WindowConfig where
  title : String
  width : Nat
  height : Nat
deriving DecidableEq, Repr

/-- HelloTriangleApplication::init_window: the WindowBuilder configuration
(title and logical inner size) requested at window construction. -/
def init_window : WindowConfig :=
  { title := "Hello Triange Application", width := WIDTH, height := HEIGHT }

/-- HelloTriangleApplication::find_queue_families: enumerate the device's queue
families and return the first (index, properties) pair whose flags contain
GRAPHICS. -/
def find_queue_families (device : PhysicalDevice) :
    Option (Nat × QueueFamilyProperties) :=
  (device.queueFamilies.enum).find? fun pair => pair.2.queueFlags.graphics

/-- HelloTriangleApplication::is_physical_device_suitable: tests only that the
device type is DISCRETE_GPU. -/
def is_physical_device_suitable (device : PhysicalDevice) : Bool :=
  device.properties.deviceType == PhysicalDeviceType.discreteGpu

/-- HelloTriangleApplication::pick_physical_device: the first enumerated device
that is suitable and has some graphics-capable queue family. -/
def pick_physical_device (physical_devices : List PhysicalDevice) :
    Option PhysicalDevice :=
  physical_devices.find? fun d =>
    is_physical_device_suitable d && (find_queue_families d).isSome

/-- The spec's suitability predicate, worded as in the spec: type is the
discrete accelerator AND find_queue_family succeeds. Stated separately from the
source's is_physical_device_suitable (which checks only the type) so the two
can be compared. -/
def is_suitable (device : PhysicalDevice) : Bool :=
  (device.properties.deviceType == PhysicalDeviceType.discreteGpu)
    && (find_queue_families device).isSome

/-- The fields of vk::DeviceCreateInfo that create_logical_device fills in. The
builder's extension list is never set, so it stays at its default, the empty
list. -/
structure DeviceCreateInfo where
  queueFamilyIndex : Nat
  enabledLayerNames : List String
  enabledExtensionNames : List String
deriving DecidableEq, Repr

/-- HelloTriangleApplication::create_logical_device, modelled as the
DeviceCreateInfo it passes to the native call: none when the unwrap of
find_queue_families would panic. The layer list starts empty and receives
VulkanDebugger::add_necessary_layers. -/
def create_logical_device (enabled : Bool) (device : PhysicalDevice) :
    Option DeviceCreateInfo :=
  (find_queue_families device).map fun pair =>
    { queueFamilyIndex := pair.1
    , enabledLayerNames := add_necessary_layers enabled []
    , enabledExtensionNames := [] }

/-- The fields of vk::InstanceCreateInfo that init_vulkan fills in, plus whether
a debug-messenger descriptor was chained via push_next. -/
structure InstanceCreateInfo where
  enabledExtensionNames : List String
  enabledLayerNames : List String
  debugMessengerChained : Bool
deriving DecidableEq, Repr

/-- HelloTriangleApplication::init_vulkan, modelled as the InstanceCreateInfo it
passes to the native call: the window-required surface extensions extended by
add_necessary_extensions, the layer list built from empty by
add_necessary_layers, and the messenger descriptor chained exactly when
get_debug_messenger_info returns one. -/
def init_vulkan (enabled : Bool) (surface_extensions : List String) :
    InstanceCreateInfo :=
  { enabledExtensionNames := add_necessary_extensions enabled surface_extensions
  , enabledLayerNames := add_necessary_layers enabled []
  , debugMessengerChained := (get_debug_messenger_info enabled).isSome }

/-! ## Event loop (HelloTriangleApplication::run) -/

/-- winit ControlFlow values the closure assigns. -/
inductive ControlFlow where
  | wait
  | exited
deriving DecidableEq, Repr

/-- Window events, collapsed to the discrimination the closure makes:
CloseRequested versus everything else. -/
inductive WinEvent where
  | closeRequested
  | other
deriving DecidableEq, Repr

/-- The closure passed to run_return: first sets control_flow to Wait, then to
Exit when the event is WindowEvent::CloseRequested. The incoming control_flow
value is overwritten before it is read, hence ignored. -/
def event_handler (event : WinEvent) (_control_flow : ControlFlow) : ControlFlow :=
  match event with
  | WinEvent.closeRequested => ControlFlow.exited
  | WinEvent.other => ControlFlow.wait

/-- run_return over a scripted event stream: while control_flow is not Exit,
dispatch the next event to the closure; once Exit is set no further event is
dispatched. Returns the list of dispatched events and the final control flow. -/
def run_return : List WinEvent → ControlFlow → List WinEvent × ControlFlow
  | [], cf => ([], cf)
  | e :: rest, cf =>
    if cf = ControlFlow.exited then ([], cf)
    else
      let r := run_return rest (event_handler e cf)
      (e :: r.1, r.2)

/-- HelloTriangleApplication::run on a scripted event stream, starting from the
waiting state. -/
def run (events : List WinEvent) : List WinEvent × ControlFlow :=
  run_return events ControlFlow.wait

/-! ## Teardown and startup (Drop impl and HelloTriangleApplication::new) -/

/-- Destroy calls observable at the native boundary. -/
inductive DestroyEvent where
  | diagnosticSubscription
  | logicalDevice
  | instanceHandle
deriving DecidableEq, Repr

/-- VulkanDebugger::clean_up: destroys the debug-utils messenger. -/
def clean_up : List DestroyEvent := [DestroyEvent.diagnosticSubscription]

/-- Destroy calls made when an ash::Instance value is dropped: none, because
ash::Instance has no Drop impl calling destroy_instance. -/
def drop_instance_trace : List DestroyEvent := []

/-- Destroy calls made when a VulkanDebugger value is dropped: none, because
VulkanDebugger has no Drop impl; its messenger is destroyed only by an explicit
clean_up call. -/
def drop_debugger_trace : List DestroyEvent := []

/-- Destroy calls made when an ash::Device value is dropped: none, because
ash::Device has no Drop impl calling destroy_device. -/
def drop_device_trace : List DestroyEvent := []

/-- Drop for HelloTriangleApplication: clean_up of the debugger when present,
then destroy_device, then destroy_instance. The Option argument is the
debugger field. -/
def drop_app (debugger : Option Unit) : List DestroyEvent :=
  (match debugger with
   | some _ => clean_up
   | none => []) ++ [DestroyEvent.logicalDevice] ++ [DestroyEvent.instanceHandle]

/-- The application state HelloTriangleApplication::new builds on success,
restricted to what later claims read. -/
structure App where
  hasDebugger : Bool
  queueFamilyIndex : Nat
deriving DecidableEq, Repr

/-- The startup errors new can surface, plus unwrapPanic modelling the panic of
an unwrap of find_queue_families. -/
inductive StartupError where
  | platform
  | instanceCreation
  | messengerCreation
  | noSuitableDevice
  | deviceCreation
  | unwrapPanic
deriving DecidableEq, Repr

/-- Outcomes of the native calls new makes, in program order: whether window
construction, instance creation, messenger creation and logical-device creation
succeed, whether the build-time diagnostics flag holds, and the enumerated
physical devices. -/
structure NewOutcomes where
  windowOk : Bool
  instanceOk : Bool
  diagnosticsEnabled : Bool
  messengerOk : Bool
  devices : List PhysicalDevice
  deviceOk : Bool
deriving DecidableEq, Repr

/-- HelloTriangleApplication::new: runs init_window, init_vulkan,
VulkanDebugger::new, pick_physical_device, create_logical_device and the final
queue-family unwrap in program order, returning the startup result together
with the destroy calls performed during the run. Every early return drops the
live locals, whose drops perform no destroy calls (drop_instance_trace and
drop_debugger_trace are empty): teardown happens only in Drop for the fully
constructed application. -/
def new (o : NewOutcomes) : Except StartupError App × List DestroyEvent :=
  if o.windowOk = false then (Except.error StartupError.platform, [])
  else if o.instanceOk = false then (Except.error StartupError.instanceCreation, [])
  else if o.diagnosticsEnabled && o.messengerOk = false then
    (Except.error StartupError.messengerCreation, drop_instance_trace)
  else
    match pick_physical_device o.devices with
    | none =>
        (Except.error StartupError.noSuitableDevice,
          drop_debugger_trace ++ drop_instance_trace)
    | some pd =>
        match create_logical_device o.diagnosticsEnabled pd with
        | none =>
            (Except.error StartupError.unwrapPanic,
              drop_debugger_trace ++ drop_instance_trace)
        | some _dinfo =>
            if o.deviceOk = false then
              (Except.error StartupError.deviceCreation,
                drop_device_trace ++ drop_debugger_trace ++ drop_instance_trace)
            else
              match find_queue_families pd with
              | none =>
                  (Except.error StartupError.unwrapPanic,
                    drop_device_trace ++ drop_debugger_trace ++ drop_instance_trace)
              | some pair =>
                  (Except.ok
                    { hasDebugger := o.diagnosticsEnabled
                    , queueFamilyIndex := pair.1 }, [])

/-! ## Concrete fixtures -/

/-- A queue family with the graphics bit set. -/
def gfxFamily : QueueFamilyProperties :=
  { queueFlags := { graphics := true, compute := true, transfer := true }
  , queueCount := 1 }

/-- A queue family without the graphics bit. -/
def computeOnlyFamily : QueueFamilyProperties :=
  { queueFlags := { graphics := false, compute := true, transfer := true }
  , queueCount := 1 }

/-- A discrete device none of whose queue families has the graphics flag. -/
def noGraphicsDiscrete : PhysicalDevice :=
  { properties := { deviceType := PhysicalDeviceType.discreteGpu }
  , queueFamilies := [computeOnlyFamily, computeOnlyFamily] }

/-- A discrete device whose graphics-capable families sit at indices 2 and 5. -/
def twoFiveDevice : PhysicalDevice :=
  { properties := { deviceType := PhysicalDeviceType.discreteGpu }
  , queueFamilies :=
      [computeOnlyFamily, computeOnlyFamily, gfxFamily,
       computeOnlyFamily, computeOnlyFamily, gfxFamily] }

/-- A suitable discrete device with one graphics-capable family at index 0. -/
def sampleGpu : PhysicalDevice :=
  { properties := { deviceType := PhysicalDeviceType.discreteGpu }
  , queueFamilies := [gfxFamily] }

/-- Startup outcomes where window, instance and messenger creation succeed but
no physical device exists, so device selection fails. -/
def selectionFailureOutcomes : NewOutcomes :=
  { windowOk := true
  , instanceOk := true
  , diagnosticsEnabled := true
  , messengerOk := true
  , devices := []
  , deviceOk := true }

/-! ## Helper lemmas -/

/-- find? over an enumeration fails exactly when no element satisfies the
predicate. -/
theorem enumFrom_find?_eq_none {α : Type} (p : α → Bool) (l : List α) :
    ∀ n : Nat,
      ((l.enumFrom n).find? fun pair => p pair.2) = none ↔
        ∀ a ∈ l, p a = false := by
  induction l with
  | nil => intro n; simp [List.enumFrom]
  | cons a l ih =>
    intro n
    cases hpa : p a with
    | true =>
      simp [List.enumFrom_cons, List.find?_cons_of_pos, hpa]
    | false =>
      rw [List.enumFrom_cons, List.find?_cons_of_neg _ (by simpa using hpa)]
      simp [ih (n + 1), hpa]

/-- find? over an enumeration returns the first satisfying element, together
with its absolute index. -/
theorem enumFrom_find?_eq_some {α : Type} (p : α → Bool) (l : List α) :
    ∀ (n i : Nat) (a : α),
      ((l.enumFrom n).find? fun pair => p pair.2) = some (i, a) →
      n ≤ i ∧ l.get? (i - n) = some a ∧ p a = true ∧
        ∀ j, j < i - n → ∃ b, l.get? j = some b ∧ p b = false := by
  induction l with
  | nil => intro n i a h; simp [List.enumFrom] at h
  | cons x l ih =>
    intro n i a h
    rw [List.enumFrom_cons] at h
    cases hpx : p x with
    | true =>
      rw [List.find?_cons_of_pos _ (by simpa using hpx)] at h
      obtain ⟨hn, hx⟩ : n = i ∧ x = a := by
        have := Option.some.inj h
        exact ⟨congrArg Prod.fst this, congrArg Prod.snd this⟩
      subst hn; subst hx
      refine ⟨Nat.le_refl n, by simp, hpx, ?_⟩
      intro j hj
      omega
    | false =>
      rw [List.find?_cons_of_neg _ (by simpa using hpx)] at h
      obtain ⟨hni, hget, hpa, hbefore⟩ := ih (n + 1) i a h
      refine ⟨by omega, ?_, hpa, ?_⟩
      · have hi : i - n = (i - (n + 1)) + 1 := by omega
        rw [hi]
        simpa using hget
      · intro j hj
        cases j with
        | zero => exact ⟨x, rfl, hpx⟩
        | succ j =>
          have hj' : j < i - (n + 1) := by omega
          obtain ⟨b, hb, hpb⟩ := hbefore j hj'
          exact ⟨b, by simpa using hb, hpb⟩

/-- find_queue_families fails exactly when no queue family has the graphics
flag. -/
theorem find_queue_families_eq_none (d : PhysicalDevice) :
    find_queue_families d = none ↔
      ∀ qf ∈ d.queueFamilies, qf.queueFlags.graphics = false := by
  simpa [find_queue_families, List.enum] using
    enumFrom_find?_eq_none
      (fun qf : QueueFamilyProperties => qf.queueFlags.graphics)
      d.queueFamilies 0

/-- A successful find_queue_families result is the lowest graphics-capable
index. -/
theorem find_queue_families_eq_some (d : PhysicalDevice) (i : Nat)
    (qf : QueueFamilyProperties) (h : find_queue_families d = some (i, qf)) :
    d.queueFamilies.get? i = some qf ∧ qf.queueFlags.graphics = true ∧
      ∀ j, j < i → ∃ qf2, d.queueFamilies.get? j = some qf2 ∧
        qf2.queueFlags.graphics = false := by
  have := enumFrom_find?_eq_some
    (fun qf : QueueFamilyProperties => qf.queueFlags.graphics)
    d.queueFamilies 0 i qf (by simpa [find_queue_families, List.enum] using h)
  simpa using this

/-- Any device returned by pick_physical_device has a graphics-capable queue
family. -/
theorem find_isSome_of_pick (devices : List PhysicalDevice)
    (d : PhysicalDevice) (h : pick_physical_device devices = some d) :
    (find_queue_families d).isSome = true := by
  have hp := List.find?_some h
  simp only [Bool.and_eq_true] at hp
  exact hp.2

/-- create_logical_device succeeds whenever the device has a graphics-capable
queue family. -/
theorem create_logical_device_isSome (enabled : Bool) (d : PhysicalDevice)
    (h : (find_queue_families d).isSome = true) :
    (create_logical_device enabled d).isSome = true := by
  obtain ⟨pair, hpair⟩ := Option.isSome_iff_exists.mp h
  simp [create_logical_device, hpair]

/-- new never reaches an unwrap panic: both unwraps of find_queue_families are
guarded by pick_physical_device having succeeded. -/
theorem new_fst_ne_unwrapPanic (o : NewOutcomes) :
    (new o).1 ≠ Except.error StartupError.unwrapPanic := by
  unfold new
  split
  · simp
  split
  · simp
  split
  · simp
  split
  · simp
  next pd hpick =>
    have hfind := find_isSome_of_pick o.devices pd hpick
    split
    next hcld =>
      have hs := create_logical_device_isSome o.diagnosticsEnabled pd hfind
      rw [hcld] at hs
      simp at hs
    next dinfo hcld =>
      split
      · simp
      split
      next hnone =>
        rw [hnone] at hfind
        simp at hfind
      next pair hsome => simp

/-- Once the control flow is Exit, run_return dispatches nothing. -/
theorem run_return_exited (l : List WinEvent) :
    run_return l ControlFlow.exited = ([], ControlFlow.exited) := by
  cases l <;> simp [run_return]

/-- Events with no close request pass through the loop, leaving it waiting. -/
theorem run_return_append_no_close (pre l : List WinEvent)
    (h : WinEvent.closeRequested ∉ pre) :
    run_return (pre ++ l) ControlFlow.wait =
      (pre ++ (run_return l ControlFlow.wait).1,
        (run_return l ControlFlow.wait).2) := by
  induction pre with
  | nil => simp
  | cons e pre ih =>
    have he : e ≠ WinEvent.closeRequested := fun h' =>
      h (h' ▸ List.mem_cons_self _ _)
    have hcf : event_handler e ControlFlow.wait = ControlFlow.wait := by
      cases e
      · exact absurd rfl he
      · rfl
    rw [List.cons_append, run_return, if_neg (by simp), hcf,
      ih fun hm => h (List.mem_cons_of_mem _ hm)]
    rfl

/-- The validation-layer list built from empty when diagnostics are enabled is
exactly the single Khronos validation layer. -/
theorem add_necessary_layers_true :
    add_necessary_layers true [] = [validationLayerName] := by decide

/-! ## Claims -/

/-- C1: for every physical device, the spec's suitability predicate (type is
discrete-accelerator AND find_queue_family succeeds) is exactly the predicate
pick_physical_device selects by; for a discrete-accelerator device none of
whose queue families has the graphics flag that predicate is false, and
selection skips the device, proceeding to the next candidate or failing when
none remain. -/
theorem c1_suitability_refinement (d : PhysicalDevice)
    (rest : List PhysicalDevice)
    (hd : d.properties.deviceType = PhysicalDeviceType.discreteGpu)
    (hq : ∀ qf ∈ d.queueFamilies, qf.queueFlags.graphics = false) :
    (∀ devices : List PhysicalDevice,
      pick_physical_device devices = devices.find? is_suitable)
  ∧ is_suitable d = false
  ∧ pick_physical_device (d :: rest) = pick_physical_device rest
  ∧ pick_physical_device [d] = none := by
  have hnone : find_queue_families d = none :=
    (find_queue_families_eq_none d).mpr hq
  have hpred :
      (is_physical_device_suitable d && (find_queue_families d).isSome)
        = false := by
    simp [hnone]
  refine ⟨fun devices => rfl, by simp [is_suitable, hnone], ?_, ?_⟩
  · rw [pick_physical_device, pick_physical_device,
      List.find?_cons_of_neg _ (by simp [hpred])]
  · rw [pick_physical_device, List.find?_cons_of_neg _ (by simp [hpred])]
    rfl

/-- Witness for C1 at a concrete discrete device with no graphics-capable
queue family. -/
theorem c1_witness :
    is_suitable noGraphicsDiscrete = false
  ∧ pick_physical_device [noGraphicsDiscrete] = none :=
  ⟨(c1_suitability_refinement noGraphicsDiscrete [] (by decide)
      (by decide)).2.1,
   (c1_suitability_refinement noGraphicsDiscrete [] (by decide)
      (by decide)).2.2.2⟩

/-- C2 (amended): with diagnostics enabled, for every window-required
extension set not already containing the diagnostic extension name, the
instance creation lists hold exactly one diagnostic extension name and exactly
one validation layer name; the device creation lists hold exactly one
validation layer name and an empty extension list. -/
theorem c2_diagnostic_lists (surface_extensions : List String)
    (hno : debugUtilsExtensionName ∉ surface_extensions)
    (d : PhysicalDevice) (dinfo : DeviceCreateInfo)
    (hd : create_logical_device true d = some dinfo) :
    (init_vulkan true surface_extensions).enabledExtensionNames.count
      debugUtilsExtensionName = 1
  ∧ (init_vulkan true surface_extensions).enabledLayerNames
      = [validationLayerName]
  ∧ dinfo.enabledLayerNames = [validationLayerName]
  ∧ dinfo.enabledExtensionNames = [] := by
  obtain ⟨pair, hpair, hdinfo⟩ := Option.map_eq_some'.mp hd
  refine ⟨?_, ?_, ?_, ?_⟩
  · simp [init_vulkan, add_necessary_extensions, List.count_append,
      List.count_eq_zero.mpr hno]
  · simpa [init_vulkan] using add_necessary_layers_true
  · rw [← hdinfo]
    simpa using add_necessary_layers_true
  · rw [← hdinfo]

/-- Witness for C2 at the window extension set of the spec's end-to-end test. -/
theorem c2_witness :
    (init_vulkan true ["surface_ext"]).enabledExtensionNames.count
      debugUtilsExtensionName = 1
  ∧ (init_vulkan true ["surface_ext"]).enabledLayerNames
      = [validationLayerName] :=
  ⟨(c2_diagnostic_lists ["surface_ext"] (by decide) sampleGpu
      { queueFamilyIndex := 0
      , enabledLayerNames := [validationLayerName]
      , enabledExtensionNames := [] } (by decide)).1,
   (c2_diagnostic_lists ["surface_ext"] (by decide) sampleGpu
      { queueFamilyIndex := 0
      , enabledLayerNames := [validationLayerName]
      , enabledExtensionNames := [] } (by decide)).2.1⟩

/-- C2 counterexample: with diagnostics enabled, a window-required set that
already contains the diagnostic extension name yields two occurrences in the
instance extension list, and the device creation lists hold zero diagnostic
extension names (the device extension list is never populated), both
contradicting "exactly one". -/
theorem c2_counterexample :
    (init_vulkan true [debugUtilsExtensionName]).enabledExtensionNames.count
      debugUtilsExtensionName = 2
  ∧ (create_logical_device true sampleGpu).map
      (fun di => di.enabledExtensionNames.count debugUtilsExtensionName)
      = some 0 := by decide

/-- C3 (amended): whichever step fails, HelloTriangleApplication::new performs
no destroy call before surfacing the startup error: resources created by
earlier steps are not released on the error path (release happens only in Drop
of a fully constructed application). -/
theorem c3_no_unwind_on_error (o : NewOutcomes) : (new o).2 = [] := by
  unfold new
  repeat' first | rfl | split

/-- C3 counterexample: window, instance and messenger creation succeed, device
selection then fails, the error is surfaced, yet the destroy trace is empty:
the already-created instance is not released before the error propagates. -/
theorem c3_counterexample :
    (new selectionFailureOutcomes).1
      = Except.error StartupError.noSuitableDevice
  ∧ (new selectionFailureOutcomes).2.count DestroyEvent.instanceHandle = 0 :=
  ⟨rfl, rfl⟩

/-- C4: dropping a fully constructed application destroys, in order, the
diagnostic subscription (exactly when present), then the logical device, then
the instance, each exactly once. -/
theorem c4_teardown_order (debugger : Option Unit) :
    drop_app (some ()) = [DestroyEvent.diagnosticSubscription,
      DestroyEvent.logicalDevice, DestroyEvent.instanceHandle]
  ∧ drop_app none = [DestroyEvent.logicalDevice, DestroyEvent.instanceHandle]
  ∧ (drop_app debugger).count DestroyEvent.diagnosticSubscription
      = (if debugger.isSome then 1 else 0)
  ∧ (drop_app debugger).count DestroyEvent.logicalDevice = 1
  ∧ (drop_app debugger).count DestroyEvent.instanceHandle = 1 := by
  cases debugger with
  | none => decide
  | some u => cases u; decide

/-- C5: find_queue_families returns the lowest index whose flags include
graphics, and none when no family has the graphics flag; on a device with
graphics-capable families at indices 2 and 5 it returns index 2. -/
theorem c5_lowest_graphics_index (d : PhysicalDevice) :
    (find_queue_families d = none ↔
      ∀ qf ∈ d.queueFamilies, qf.queueFlags.graphics = false)
  ∧ (∀ i qf, find_queue_families d = some (i, qf) →
      d.queueFamilies.get? i = some qf ∧ qf.queueFlags.graphics = true ∧
        ∀ j, j < i → ∃ qf2, d.queueFamilies.get? j = some qf2 ∧
          qf2.queueFlags.graphics = false)
  ∧ (find_queue_families twoFiveDevice).map Prod.fst = some 2 :=
  ⟨find_queue_families_eq_none d,
   fun i qf h => find_queue_families_eq_some d i qf h,
   by decide⟩

/-- Witness for C5 at the device with graphics families at indices 2 and 5. -/
theorem c5_witness :
    twoFiveDevice.queueFamilies.get? 2 = some gfxFamily
  ∧ gfxFamily.queueFlags.graphics = true :=
  ⟨((c5_lowest_graphics_index twoFiveDevice).2.1 2 gfxFamily (by decide)).1,
   ((c5_lowest_graphics_index twoFiveDevice).2.1 2 gfxFamily (by decide)).2.1⟩

/-- C6 (amended): with diagnostics disabled the builders add nothing: the
instance extension list is exactly the window-required list, the instance and
device layer lists are empty, and the device extension list is empty; with a
window requiring exactly "surface_ext" the instance extension set is exactly
that and the layer set is empty. -/
theorem c6_disabled_lists (exts : List String) (d : PhysicalDevice)
    (i : Nat) (qf : QueueFamilyProperties)
    (hq : find_queue_families d = some (i, qf)) :
    (init_vulkan false exts).enabledExtensionNames = exts
  ∧ (init_vulkan false exts).enabledLayerNames = []
  ∧ create_logical_device false d = some
      { queueFamilyIndex := i
      , enabledLayerNames := []
      , enabledExtensionNames := [] }
  ∧ (init_vulkan false ["surface_ext"]).enabledExtensionNames
      = ["surface_ext"]
  ∧ (init_vulkan false ["surface_ext"]).enabledLayerNames = [] := by
  refine ⟨rfl, rfl, ?_, rfl, rfl⟩
  simp [create_logical_device, hq, add_necessary_layers]

/-- Witness for C6 at the spec's end-to-end inputs. -/
theorem c6_witness :
    (init_vulkan false ["surface_ext"]).enabledExtensionNames
      = ["surface_ext"]
  ∧ create_logical_device false sampleGpu = some
      { queueFamilyIndex := 0
      , enabledLayerNames := []
      , enabledExtensionNames := [] } :=
  ⟨(c6_disabled_lists ["surface_ext"] sampleGpu 0 gfxFamily (by decide)).1,
   (c6_disabled_lists ["surface_ext"] sampleGpu 0 gfxFamily
      (by decide)).2.2.1⟩

/-- C6 counterexample: with diagnostics disabled, a window-required set that
itself contains the diagnostic extension name makes that name appear in the
instance extension list, contradicting "zero diagnostic extension names for
every input". -/
theorem c6_counterexample :
    (init_vulkan false [debugUtilsExtensionName]).enabledExtensionNames.count
      debugUtilsExtensionName = 1 := by decide

/-- C7: the callback maps severity error→error, warning→warn, info→info,
verbose→debug, forwards the message text, and for every severity returns
vk::FALSE, the do-not-abort value. -/
theorem c7_callback_mapping (msg : String) (s : SeverityFlags) :
    vulkan_debug_callback severityError msg = ([(LogLevel.error, msg)], false)
  ∧ vulkan_debug_callback severityWarning msg = ([(LogLevel.warn, msg)], false)
  ∧ vulkan_debug_callback severityInfo msg = ([(LogLevel.info, msg)], false)
  ∧ vulkan_debug_callback severityVerbose msg = ([(LogLevel.debug, msg)], false)
  ∧ (vulkan_debug_callback s msg).2 = false :=
  ⟨rfl, rfl, rfl, rfl, rfl⟩

/-- C8: every event before the close request is dispatched and leaves the loop
waiting; the close request is dispatched, moves the loop to the terminal state,
and nothing after it is dispatched; a stream with no close request is fully
dispatched and the loop stays waiting. -/
theorem c8_event_loop (pre post : List WinEvent)
    (h : WinEvent.closeRequested ∉ pre) :
    (run (pre ++ WinEvent.closeRequested :: post)).1
      = pre ++ [WinEvent.closeRequested]
  ∧ (run (pre ++ WinEvent.closeRequested :: post)).2 = ControlFlow.exited
  ∧ (run (pre ++ WinEvent.closeRequested :: post)).1.count
      WinEvent.closeRequested = 1
  ∧ (run pre).1 = pre
  ∧ (run pre).2 = ControlFlow.wait := by
  have hclose :
      run_return (WinEvent.closeRequested :: post) ControlFlow.wait
        = ([WinEvent.closeRequested], ControlFlow.exited) := by
    rw [run_return, if_neg (by simp)]
    simp [event_handler, run_return_exited]
  have hmain := run_return_append_no_close pre
    (WinEvent.closeRequested :: post) h
  rw [hclose] at hmain
  have hpre := run_return_append_no_close pre [] h
  simp [run_return] at hpre
  refine ⟨?_, ?_, ?_, ?_, ?_⟩
  · rw [run, hmain]
  · rw [run, hmain]
  · rw [run, hmain]
    simp [List.count_append, List.count_eq_zero.mpr h]
  · rw [run, hpre]
  · rw [run, hpre]

/-- Witness for C8: one ignored event, then a close request, then one more
event that is no longer dispatched. -/
theorem c8_witness :
    (run ([WinEvent.other] ++ WinEvent.closeRequested :: [WinEvent.other])).1
      = [WinEvent.other] ++ [WinEvent.closeRequested]
  ∧ (run ([WinEvent.other] ++ WinEvent.closeRequested :: [WinEvent.other])).2
      = ControlFlow.exited :=
  ⟨(c8_event_loop [WinEvent.other] [WinEvent.other] (by decide)).1,
   (c8_event_loop [WinEvent.other] [WinEvent.other] (by decide)).2.1⟩

/-- C9: the window is configured with logical size 800 by 600, but the title
the code sets is the misspelled "Hello Triange Application", not the
"Hello Triangle Application" the claim states. -/
theorem c9_window_constants :
    init_window.width = 800
  ∧ init_window.height = 600
  ∧ init_window.title = "Hello Triange Application"
  ∧ init_window.title ≠ "Hello Triangle Application" :=
  ⟨rfl, rfl, rfl, by decide⟩

/-- C10: whenever pick_physical_device returns a device, find_queue_families
succeeds on it, so create_logical_device's unwrap succeeds in either build
configuration and new can never reach an unwrap panic. -/
theorem c10_unwrap_unreachable (devices : List PhysicalDevice)
    (d : PhysicalDevice) (h : pick_physical_device devices = some d) :
    (find_queue_families d).isSome = true
  ∧ (create_logical_device true d).isSome = true
  ∧ (create_logical_device false d).isSome = true
  ∧ ∀ o : NewOutcomes, (new o).1 ≠ Except.error StartupError.unwrapPanic := by
  have hfind := find_isSome_of_pick devices d h
  exact ⟨hfind, create_logical_device_isSome true d hfind,
    create_logical_device_isSome false d hfind, new_fst_ne_unwrapPanic⟩

/-- Witness for C10 at a one-element device list. -/
theorem c10_witness :
    (find_queue_families sampleGpu).isSome = true
  ∧ (create_logical_device true sampleGpu).isSome = true :=
  ⟨(c10_unwrap_unreachable [sampleGpu] sampleGpu (by decide)).1,
   (c10_unwrap_unreachable [sampleGpu] sampleGpu (by decide)).2.1⟩

end Oxide
